import Mathlib

/-!
Shallow embedding of `patch/config/test-callout-fix.py` from
ServiceNow-2-Notion: a manual integration-test script that reads a local
HTML fixture, POSTs it to a local import service, prints a summary of the
validation response of the service, and exits 0 or 1.

JSON values are modelled by the inductive `Json`; Python truthiness and
`dict.get` are modelled explicitly.  The run is a pure function of the
file-read result and the HTTP response; console output is modelled as a
trace of `PrintEvent`s and the process outcome as `Outcome` (either a
normal return from `test_callout_fix` or an uncaught exception, which
makes the interpreter exit with status 1).
-/

namespace S2N

/-- A JSON value, as produced by `response.json()`. -/
inductive Json where
  | null : Json
  | bool (b : Bool) : Json
  | num (n : Int) : Json
  | str (s : String) : Json
  | arr (items : List Json) : Json
  | obj (fields : List (String × Json)) : Json

mutual

/-- Decidable equality on `Json` (the automatic derivation does not handle
the nested lists). -/
def Json.decEq : (a b : Json) → Decidable (a = b)
  | .null, .null => .isTrue rfl
  | .bool a, .bool b =>
      if h : a = b then .isTrue (by rw [h]) else .isFalse (by simp [h])
  | .num a, .num b =>
      if h : a = b then .isTrue (by rw [h]) else .isFalse (by simp [h])
  | .str a, .str b =>
      if h : a = b then .isTrue (by rw [h]) else .isFalse (by simp [h])
  | .arr xs, .arr ys =>
      match Json.decEqList xs ys with
      | .isTrue h => .isTrue (by rw [h])
      | .isFalse h => .isFalse (by simp [h])
  | .obj xs, .obj ys =>
      match Json.decEqFields xs ys with
      | .isTrue h => .isTrue (by rw [h])
      | .isFalse h => .isFalse (by simp [h])
  | .null, .bool _ => .isFalse fun h => Json.noConfusion h
  | .null, .num _ => .isFalse fun h => Json.noConfusion h
  | .null, .str _ => .isFalse fun h => Json.noConfusion h
  | .null, .arr _ => .isFalse fun h => Json.noConfusion h
  | .null, .obj _ => .isFalse fun h => Json.noConfusion h
  | .bool _, .null => .isFalse fun h => Json.noConfusion h
  | .bool _, .num _ => .isFalse fun h => Json.noConfusion h
  | .bool _, .str _ => .isFalse fun h => Json.noConfusion h
  | .bool _, .arr _ => .isFalse fun h => Json.noConfusion h
  | .bool _, .obj _ => .isFalse fun h => Json.noConfusion h
  | .num _, .null => .isFalse fun h => Json.noConfusion h
  | .num _, .bool _ => .isFalse fun h => Json.noConfusion h
  | .num _, .str _ => .isFalse fun h => Json.noConfusion h
  | .num _, .arr _ => .isFalse fun h => Json.noConfusion h
  | .num _, .obj _ => .isFalse fun h => Json.noConfusion h
  | .str _, .null => .isFalse fun h => Json.noConfusion h
  | .str _, .bool _ => .isFalse fun h => Json.noConfusion h
  | .str _, .num _ => .isFalse fun h => Json.noConfusion h
  | .str _, .arr _ => .isFalse fun h => Json.noConfusion h
  | .str _, .obj _ => .isFalse fun h => Json.noConfusion h
  | .arr _, .null => .isFalse fun h => Json.noConfusion h
  | .arr _, .bool _ => .isFalse fun h => Json.noConfusion h
  | .arr _, .num _ => .isFalse fun h => Json.noConfusion h
  | .arr _, .str _ => .isFalse fun h => Json.noConfusion h
  | .arr _, .obj _ => .isFalse fun h => Json.noConfusion h
  | .obj _, .null => .isFalse fun h => Json.noConfusion h
  | .obj _, .bool _ => .isFalse fun h => Json.noConfusion h
  | .obj _, .num _ => .isFalse fun h => Json.noConfusion h
  | .obj _, .str _ => .isFalse fun h => Json.noConfusion h
  | .obj _, .arr _ => .isFalse fun h => Json.noConfusion h

/-- Decidable equality on lists of `Json`. -/
def Json.decEqList : (xs ys : List Json) → Decidable (xs = ys)
  | [], [] => .isTrue rfl
  | [], _ :: _ => .isFalse fun h => List.noConfusion h
  | _ :: _, [] => .isFalse fun h => List.noConfusion h
  | x :: xs, y :: ys =>
      match Json.decEq x y, Json.decEqList xs ys with
      | .isTrue h1, .isTrue h2 => .isTrue (by rw [h1, h2])
      | .isFalse h1, _ => .isFalse (by simp [h1])
      | _, .isFalse h2 => .isFalse (by simp [h2])

/-- Decidable equality on `Json` object field lists. -/
def Json.decEqFields :
    (xs ys : List (String × Json)) → Decidable (xs = ys)
  | [], [] => .isTrue rfl
  | [], _ :: _ => .isFalse fun h => List.noConfusion h
  | _ :: _, [] => .isFalse fun h => List.noConfusion h
  | (k1, v1) :: xs, (k2, v2) :: ys =>
      if hk : k1 = k2 then
        match Json.decEq v1 v2, Json.decEqFields xs ys with
        | .isTrue h1, .isTrue h2 => .isTrue (by rw [hk, h1, h2])
        | .isFalse h1, _ => .isFalse (by simp [h1])
        | _, .isFalse h2 => .isFalse (by simp [h2])
      else .isFalse (by simp [hk])

end

instance : DecidableEq Json := Json.decEq

/-- Lookup of a key in the field list of a JSON object (Python `dict` access:
a Python `d.get k` is `(getKey fields k).getD .null`-style, `k in d` is
`(getKey fields k).isSome`). -/
def getKey : List (String × Json) → String → Option Json
  | [], _ => none
  | (k, v) :: rest, key => if k = key then some v else getKey rest key

/-- Python truthiness of a JSON value (`bool(x)`). -/
def Json.truthy : Json → Bool
  | .null => false
  | .bool b => b
  | .num n => n != 0
  | .str s => !s.isEmpty
  | .arr items => !items.isEmpty
  | .obj fields => !fields.isEmpty

/-- Python iteration over a JSON value (`for x in v`): lists yield their
items, strings their characters, dicts their keys; other values raise
`TypeError` (modelled as `none`). -/
def pythonIter : Json → Option (List Json)
  | .arr items => some items
  | .str s => some (s.data.map fun c => .str (String.mk [c]))
  | .obj fields => some (fields.map fun kv => .str kv.1)
  | _ => none

/-- The `SERVER_URL` constant from the script. -/
def SERVER_URL : String := "http://localhost:3004"

/-- The `DATABASE_ID` constant from the script. -/
def DATABASE_ID : String := "282a89fedba5815e91f0db972912ef9f"

/-- The value of `HTML_FILE.name`: the final path component of the `HTML_FILE` constant. -/
def HTML_FILE_NAME : String := "performance-overview-2025-11-13T06-49-50.html"

/-- The `payload` dict built by `test_callout_fix` (the ImportRequest). -/
structure Payload where
  title : String
  databaseId : String
  contentHtml : String
  url : String
  properties : List (String × String)
deriving DecidableEq

/-- The single HTTP POST issued by the script: target URL, JSON body,
timeout in seconds. -/
structure PostRequest where
  url : String
  payload : Payload
  timeout : Nat
deriving DecidableEq

/-- The `payload` literal from the script, as a function of the fixture
text read from `HTML_FILE`. -/
def mkPayload (html_content : String) : Payload :=
  { title := "Performance Overview (TEST FIX v3)"
    databaseId := DATABASE_ID
    contentHtml := html_content
    url := "https://example.servicenow.com/" ++ HTML_FILE_NAME
    properties := [("Source", "ServiceNow KB"), ("Status", "Published")] }

/-- The HTTP response delivered to the script: status code, raw body text,
and the result of parsing the body as JSON (`none` means `response.json()`
raises a decode error). -/
structure HttpResponse where
  status : Nat
  text : String
  body : Option Json
deriving DecidableEq

/-- The environment a run is exposed to: the result of reading `HTML_FILE`
(`none` means `open`/`read` raises), and the HTTP response (`none` means
`requests.post` raises: timeout or connection failure). -/
structure RunInput where
  fileContent : Option String
  response : Option HttpResponse
deriving DecidableEq

/-- One console print performed by the script, tagged by which `print`
statement fired and with the data it interpolated. -/
inductive PrintEvent where
  | testingHeader
  | creating
  | httpError (status : Nat) (body : String)
  | pageCreationFailed
  | dumpResult (result : Json)
  | pageCreated (pageId : Option Json)
  | urlLine (url : Option Json)
  | validationHeader
  | hasErrorsLine (v : Json)
  | countsHeader (label : String)
  | countLine (label : String) (counter : String) (v : Json)
  | errorsHeader
  | warningLine (entry : Json)
deriving DecidableEq

/-- How the process ends: `crash` is an uncaught Python exception
(interpreter exits with status 1); `ret b` is `test_callout_fix`
returning `b`, after which `__main__` calls `sys.exit(0 if b else 1)`. -/
inductive Outcome where
  | crash : Outcome
  | ret (success : Bool) : Outcome
deriving DecidableEq

/-- The process exit status determined by an `Outcome`. -/
def exitCode : Outcome → Nat
  | .crash => 1
  | .ret b => if b then 0 else 1

/-- Observable behaviour of one run: the POST issued (if any), the console
trace, and how the process ended. -/
structure RunResult where
  request : Option PostRequest
  events : List PrintEvent
  outcome : Outcome
deriving DecidableEq

/-- The `source`/`notion` count blocks (lines 58-70 of the script):
absent key prints nothing; a present dict prints the four counters with
default 0; a present non-dict raises at the first `.get` (after the
header print), modelled as `none`. -/
def blockEvents (vfs : List (String × Json)) (key label : String) :
    Option (List PrintEvent) :=
  match getKey vfs key with
  | none => some []
  | some (.obj sfs) =>
      some [.countsHeader label,
            .countLine label "Tables" ((getKey sfs "tables").getD (.num 0)),
            .countLine label "Images" ((getKey sfs "images").getD (.num 0)),
            .countLine label "Lists" ((getKey sfs "lists").getD (.num 0)),
            .countLine label "Callouts" ((getKey sfs "callouts").getD (.num 0))]
  | some _ => none

/-- The `errors` block (lines 72-75): printed only when the key is present
and its value truthy; each iterated entry becomes a warning line; a truthy
non-iterable value raises (after the header print), modelled as `none`. -/
def errorEvents (vfs : List (String × Json)) : Option (List PrintEvent) :=
  match getKey vfs "errors" with
  | none => some []
  | some errs =>
      if errs.truthy then
        match pythonIter errs with
        | none => none
        | some entries => some (.errorsHeader :: entries.map .warningLine)
      else some []

/-- Lines 42-77 of `test_callout_fix`: interpret the parsed response.
`result.get` on a non-dict raises; `not result.get` on the success key takes
the failure branch; `validation = result.get` with dict default;
`has_errors = validation.get` with default True raises when `validation`
is not a dict; then the summary blocks; finally `return not has_errors`. -/
def reportResult (result : Json) : List PrintEvent × Outcome :=
  match result with
  | .obj fs =>
      if ! ((getKey fs "success").getD .null).truthy then
        ([.pageCreationFailed, .dumpResult result], .ret false)
      else
        match (getKey fs "validation").getD (.obj []) with
        | .obj vfs =>
            let has_errors := (getKey vfs "hasErrors").getD (.bool true)
            let base : List PrintEvent :=
              [.pageCreated (getKey fs "pageId"), .urlLine (getKey fs "url"),
               .validationHeader, .hasErrorsLine has_errors]
            match blockEvents vfs "source" "Source" with
            | none => (base ++ [.countsHeader "Source"], .crash)
            | some srcEvents =>
                match blockEvents vfs "notion" "Notion" with
                | none => (base ++ srcEvents ++ [.countsHeader "Notion"], .crash)
                | some notionEvents =>
                    match errorEvents vfs with
                    | none =>
                        (base ++ srcEvents ++ notionEvents ++ [.errorsHeader],
                         .crash)
                    | some errEvents =>
                        (base ++ srcEvents ++ notionEvents ++ errEvents,
                         .ret (!has_errors.truthy))
        | _ => ([], .crash)
  | _ => ([], .crash)

/-- The whole of `test_callout_fix` (lines 14-77) as a function of the run
input: header print, file read, payload build, POST, status check, JSON
parse, then `reportResult`. -/
def test_callout_fix (input : RunInput) : RunResult :=
  match input.fileContent with
  | none => { request := none, events := [.testingHeader], outcome := .crash }
  | some html_content =>
      let req : PostRequest :=
        { url := SERVER_URL ++ "/api/W2N"
          payload := mkPayload html_content
          timeout := 120 }
      match input.response with
      | none =>
          { request := some req, events := [.testingHeader, .creating],
            outcome := .crash }
      | some response =>
          if response.status ≠ 200 then
            { request := some req,
              events := [.testingHeader, .creating,
                         .httpError response.status response.text],
              outcome := .ret false }
          else
            match response.body with
            | none =>
                { request := some req, events := [.testingHeader, .creating],
                  outcome := .crash }
            | some result =>
                let out := reportResult result
                { request := some req,
                  events := [.testingHeader, .creating] ++ out.1,
                  outcome := out.2 }

/-- The `__main__` block (lines 79-81): run the test and exit 0 on a true
return, 1 otherwise (an uncaught exception also exits 1). -/
def mainExitCode (input : RunInput) : Nat :=
  exitCode (test_callout_fix input).outcome

/-! Spec-side projections of a parsed response, used to state the claims. -/

/-- Whether the `success` field of the parsed response is Python-truthy
(`result.get scanning the success key` on a dict, absent key giving `None`). -/
def resultSuccess (result : Json) : Bool :=
  match result with
  | .obj fs => ((getKey fs "success").getD .null).truthy
  | _ => false

/-- The truthiness of `has_errors` as line 51 computes it:
the chained `result.get` / `validation.get` with default True; `none` when
`validation` is present but not a dict, so line 51 raises. -/
def computedHasErrors (result : Json) : Option Bool :=
  match result with
  | .obj fs =>
      match (getKey fs "validation").getD (.obj []) with
      | .obj vfs => some ((getKey vfs "hasErrors").getD (.bool true)).truthy
      | _ => none
  | _ => none

/-- Whether the summary-printing section (lines 58-75) completes without
raising on a validation dict: each present `source`/`notion` value is a
dict and a present truthy `errors` value is iterable. -/
def summaryOk (vfs : List (String × Json)) : Bool :=
  (blockEvents vfs "source" "Source").isSome &&
  (blockEvents vfs "notion" "Notion").isSome &&
  (errorEvents vfs).isSome

/-! Concrete inputs used by witnesses and counterexamples. -/

/-- Validation fields of a fully well-formed successful response. -/
def okValidationFields : List (String × Json) := [("hasErrors", .bool false)]

/-- Fields of a fully well-formed successful response. -/
def okRespFields : List (String × Json) :=
  [("success", .bool true), ("pageId", .str "abc123"),
   ("url", .str "https://notion.so/abc123"),
   ("validation", .obj okValidationFields)]

/-- A fully well-formed successful response. -/
def okResp : Json := .obj okRespFields

/-- A run seeing `okResp` with HTTP 200. -/
def okInput : RunInput :=
  { fileContent := some "<html></html>"
    response := some { status := 200, text := "", body := some okResp } }

/-- A successful response whose `validation.source` is a number, not a
dict: line 60 of the script raises `AttributeError` on it. -/
def badSourceResp : Json :=
  .obj [("success", .bool true),
        ("validation", .obj [("hasErrors", .bool false), ("source", .num 5)])]

/-- A run seeing `badSourceResp` with HTTP 200. -/
def badSourceInput : RunInput :=
  { fileContent := some "<html></html>"
    response := some { status := 200, text := "", body := some badSourceResp } }

/-- A response whose `success` field is `false`. -/
def failRespFields : List (String × Json) :=
  [("success", .bool false), ("error", .str "boom"),
   ("validation", .obj [("hasErrors", .bool false)])]

/-- The `success:false` response as a JSON value. -/
def failResp : Json := .obj failRespFields

/-- A run seeing `failResp` with HTTP 200. -/
def failInput : RunInput :=
  { fileContent := some "<html></html>"
    response := some { status := 200, text := "", body := some failResp } }

/-- A truthy-`success` response with no `validation` key at all. -/
def noValFields : List (String × Json) := [("success", .bool true)]

/-- The no-validation response as a JSON value. -/
def noValResp : Json := .obj noValFields

/-- A run seeing `noValResp` with HTTP 200. -/
def noValInput : RunInput :=
  { fileContent := some "<html></html>"
    response := some { status := 200, text := "", body := some noValResp } }

/-- A response with no `success` key at all. -/
def noSuccFields : List (String × Json) := [("pageId", .str "xyz")]

/-- The no-`success` response as a JSON value. -/
def noSuccResp : Json := .obj noSuccFields

/-- A run seeing `noSuccResp` with HTTP 200. -/
def noSuccInput : RunInput :=
  { fileContent := some "<html></html>"
    response := some { status := 200, text := "", body := some noSuccResp } }

/-! General lemmas about the run, shared by the claim proofs. -/

/-- The `exitCode` of an outcome is 0 exactly on a successful return from the test. -/
theorem exitCode_eq_zero_iff (o : Outcome) : exitCode o = 0 ↔ o = .ret true := by
  cases o with
  | crash => simp [exitCode]
  | ret b => cases b <;> simp [exitCode]

/-- The `exitCode` of an outcome is 1 exactly when the test does not return `True`. -/
theorem exitCode_eq_one_iff (o : Outcome) : exitCode o = 1 ↔ o ≠ .ret true := by
  cases o with
  | crash => simp [exitCode]
  | ret b => cases b <;> simp [exitCode]

/-- The interpretation of a parsed response returns `True` exactly when the
response is a dict with truthy `success`, the defaulted `validation` value
is a dict whose defaulted `hasErrors` is falsy, and the summary section
does not raise. -/
theorem reportResult_ret_true_iff (result : Json) :
    (reportResult result).2 = .ret true ↔
    ∃ fs, result = .obj fs ∧
      ((getKey fs "success").getD .null).truthy = true ∧
      ∃ vfs, (getKey fs "validation").getD (.obj []) = .obj vfs ∧
        ((getKey vfs "hasErrors").getD (.bool true)).truthy = false ∧
        summaryOk vfs = true := by
  cases result with
  | null => simp [reportResult]
  | bool b => simp [reportResult]
  | num n => simp [reportResult]
  | str s => simp [reportResult]
  | arr xs => simp [reportResult]
  | obj fs =>
      by_cases hs : ((getKey fs "success").getD .null).truthy
      · rcases hv : (getKey fs "validation").getD (.obj []) with _ | b | n | s | xs | vfs
        · simp [reportResult, hs, hv]
        · simp [reportResult, hs, hv]
        · simp [reportResult, hs, hv]
        · simp [reportResult, hs, hv]
        · simp [reportResult, hs, hv]
        · rcases hsrc : blockEvents vfs "source" "Source" with _ | srcEvents
          · simp [reportResult, hs, hv, hsrc, summaryOk]
          · rcases hnot : blockEvents vfs "notion" "Notion" with _ | notionEvents
            · simp [reportResult, hs, hv, hsrc, hnot, summaryOk]
            · rcases herr : errorEvents vfs with _ | errEvents
              · simp [reportResult, hs, hv, hsrc, hnot, herr, summaryOk]
              · simp [reportResult, hs, hv, hsrc, hnot, herr, summaryOk,
                      Option.isSome]
      · simp [reportResult, hs]

/-! The claims. -/

/-- C1 (amended): the exit code is 0 exactly when the file read succeeds,
the HTTP call returns status 200 with a JSON-dict body whose `success` is
truthy, the defaulted `validation` value is a dict whose defaulted
`hasErrors` is falsy, and the summary printing completes without raising;
in every other case, including all fatal-error paths, the exit code is 1
(the exit code is always 0 or 1, so the iff states exactly this). -/
theorem claim1_exit_zero_iff (input : RunInput) :
    mainExitCode input = 0 ↔
    ∃ html resp fs,
      input.fileContent = some html ∧
      input.response = some resp ∧
      resp.status = 200 ∧
      resp.body = some (.obj fs) ∧
      ((getKey fs "success").getD .null).truthy = true ∧
      ∃ vfs, (getKey fs "validation").getD (.obj []) = .obj vfs ∧
        ((getKey vfs "hasErrors").getD (.bool true)).truthy = false ∧
        summaryOk vfs = true := by
  obtain ⟨fc, rsp⟩ := input
  rw [mainExitCode, exitCode_eq_zero_iff]
  cases fc with
  | none => simp [test_callout_fix]
  | some html =>
      cases rsp with
      | none => simp [test_callout_fix]
      | some resp =>
          by_cases hst : resp.status = 200
          · rcases hb : resp.body with _ | result
            · simp [test_callout_fix, hst, hb]
            · simp [test_callout_fix, hst, hb, reportResult_ret_true_iff]
          · simp [test_callout_fix, hst]

/-- C1 witness: a run with a well-formed fully successful response exits
with code 0. -/
theorem claim1_exit_zero_iff_witness : mainExitCode okInput = 0 :=
  (claim1_exit_zero_iff okInput).mpr
    ⟨"<html></html>", ⟨200, "", some okResp⟩, okRespFields,
     by decide, by decide, by decide, by decide, by decide,
     okValidationFields, by decide, by decide, by decide⟩

/-- C1 counterexample: on the response
`\x7b"success": true, "validation": \x7b"hasErrors": false, "source": 5\x7d\x7d`
delivered with HTTP 200, the HTTP call succeeds, `success` is truthy and
the computed `hasErrors` is false, yet the run exits 1 (line 60 raises
`AttributeError` because the source value is not a dict), so exit
code 0 does not hold exactly under the three conditions of the claim. -/
theorem claim1_counterexample :
    badSourceInput.fileContent.isSome = true ∧
    badSourceInput.response =
      some { status := 200, text := "", body := some badSourceResp } ∧
    resultSuccess badSourceResp = true ∧
    computedHasErrors badSourceResp = some false ∧
    (test_callout_fix badSourceInput).outcome = .crash ∧
    mainExitCode badSourceInput = 1 := by
  refine ⟨?_, ?_, ?_, ?_, ?_, ?_⟩ <;> decide

/-- C2: whenever the parsed 200-response is a dict with `success` equal to
`false`, the run prints the failure indicator and the full result
structure (pretty-printed by line 46) and exits 1, whatever `validation`
holds. -/
theorem claim2_success_false_dumps_and_exits_one
    (input : RunInput) (html : String) (resp : HttpResponse)
    (fs : List (String × Json))
    (hfc : input.fileContent = some html)
    (hr : input.response = some resp)
    (hst : resp.status = 200)
    (hb : resp.body = some (.obj fs))
    (hsucc : getKey fs "success" = some (.bool false)) :
    (PrintEvent.pageCreationFailed) ∈ (test_callout_fix input).events ∧
    (PrintEvent.dumpResult (.obj fs)) ∈ (test_callout_fix input).events ∧
    mainExitCode input = 1 := by
  obtain ⟨fc, rsp⟩ := input
  simp only at hfc hr
  subst hfc; subst hr
  simp [test_callout_fix, mainExitCode, exitCode, hst, hb, reportResult,
        hsucc, Json.truthy]

/-- C2 witness: a concrete `success:false` response is dumped and the run
exits 1. -/
theorem claim2_witness :
    (PrintEvent.pageCreationFailed) ∈ (test_callout_fix failInput).events ∧
    (PrintEvent.dumpResult failResp) ∈ (test_callout_fix failInput).events ∧
    mainExitCode failInput = 1 :=
  claim2_success_false_dumps_and_exits_one failInput "<html></html>"
    ⟨200, "", some failResp⟩ failRespFields rfl rfl rfl rfl (by decide)

/-- C3: on a truthy-`success` 200-response whose `validation` is absent,
or is a dict without the `hasErrors` key, line 51 computes `has_errors`
as `True` and the run exits 1. -/
theorem claim3_missing_hasErrors_defaults_to_failure
    (input : RunInput) (html : String) (resp : HttpResponse)
    (fs : List (String × Json))
    (hfc : input.fileContent = some html)
    (hr : input.response = some resp)
    (hst : resp.status = 200)
    (hb : resp.body = some (.obj fs))
    (_hsucc : ((getKey fs "success").getD .null).truthy = true)
    (hmiss : getKey fs "validation" = none ∨
      ∃ vfs, getKey fs "validation" = some (.obj vfs) ∧
        getKey vfs "hasErrors" = none) :
    computedHasErrors (.obj fs) = some true ∧ mainExitCode input = 1 := by
  obtain ⟨fc, rsp⟩ := input
  simp only at hfc hr
  subst hfc; subst hr
  constructor
  · rcases hmiss with hm | ⟨vfs, hm, hhe⟩
    · simp [computedHasErrors, hm, getKey, Json.truthy]
    · simp [computedHasErrors, hm, hhe, Json.truthy]
  · have houtcome :
        (test_callout_fix ⟨some html, some resp⟩).outcome =
          (reportResult (.obj fs)).2 := by
      simp [test_callout_fix, hst, hb]
    rw [mainExitCode, houtcome, exitCode_eq_one_iff, Ne,
        reportResult_ret_true_iff]
    rintro ⟨fs2, hfs2, hsucc2, vfs2, hv2, hhe2, hok⟩
    injection hfs2 with hfs2
    subst hfs2
    rcases hmiss with hm | ⟨vfs, hm, hhe⟩
    · rw [hm] at hv2
      simp only [Option.getD_none] at hv2
      injection hv2 with hv2
      subst hv2
      simp [getKey, Json.truthy] at hhe2
    · rw [hm] at hv2
      simp only [Option.getD_some] at hv2
      injection hv2 with hv2
      subst hv2
      simp [hhe, Json.truthy] at hhe2

/-- C3 witness: a truthy-`success` response with no `validation` key
computes `has_errors = True` and exits 1. -/
theorem claim3_witness :
    computedHasErrors noValResp = some true ∧ mainExitCode noValInput = 1 :=
  claim3_missing_hasErrors_defaults_to_failure noValInput "<html></html>"
    ⟨200, "", some noValResp⟩ noValFields rfl rfl rfl rfl (by decide)
    (Or.inl (by decide))

/-- C10: when the parsed 200-response dict has no `success` key, or has it
with value `null`, `result.get scanning the success key` is `None`, which is falsy, so
the run takes the same failure branch as `success:false`: it prints the
failure indicator, dumps the result, and exits 1. -/
theorem claim10_absent_success_is_failure
    (input : RunInput) (html : String) (resp : HttpResponse)
    (fs : List (String × Json))
    (hfc : input.fileContent = some html)
    (hr : input.response = some resp)
    (hst : resp.status = 200)
    (hb : resp.body = some (.obj fs))
    (hsucc : getKey fs "success" = none ∨ getKey fs "success" = some .null) :
    (PrintEvent.pageCreationFailed) ∈ (test_callout_fix input).events ∧
    (PrintEvent.dumpResult (.obj fs)) ∈ (test_callout_fix input).events ∧
    mainExitCode input = 1 := by
  obtain ⟨fc, rsp⟩ := input
  simp only at hfc hr
  subst hfc; subst hr
  rcases hsucc with hm | hm <;>
    simp [test_callout_fix, mainExitCode, exitCode, hst, hb, reportResult,
          hm, Json.truthy]

/-- C10 witness: a concrete response with no `success` key is treated as a
failure and the run exits 1. -/
theorem claim10_witness :
    (PrintEvent.pageCreationFailed) ∈ (test_callout_fix noSuccInput).events ∧
    (PrintEvent.dumpResult noSuccResp) ∈ (test_callout_fix noSuccInput).events ∧
    mainExitCode noSuccInput = 1 :=
  claim10_absent_success_is_failure noSuccInput "<html></html>"
    ⟨200, "", some noSuccResp⟩ noSuccFields rfl rfl rfl rfl
    (Or.inl (by decide))

/-- C4: on a non-2xx HTTP status the run prints the status code and the raw
response body, exits 1, and is entirely independent of the JSON content
of the response body (no parsing happens): replacing the body by anything, parsed
or unparseable, leaves the whole observable run unchanged.  The model
issues at most one POST by construction, so no retry occurs. -/
theorem claim4_non_2xx_short_circuits
    (input : RunInput) (html : String) (resp : HttpResponse)
    (hfc : input.fileContent = some html)
    (hr : input.response = some resp)
    (hst : ¬ (200 ≤ resp.status ∧ resp.status < 300)) :
    (test_callout_fix input).events =
      [.testingHeader, .creating, .httpError resp.status resp.text] ∧
    mainExitCode input = 1 ∧
    ∀ b, test_callout_fix
        { fileContent := some html,
          response := some { resp with body := b } } =
      test_callout_fix input := by
  obtain ⟨fc, rsp⟩ := input
  simp only at hfc hr
  subst hfc; subst hr
  have h200 : resp.status ≠ 200 := by
    intro h
    exact hst (by constructor <;> omega)
  refine ⟨?_, ?_, ?_⟩
  · simp [test_callout_fix, h200]
  · simp [mainExitCode, test_callout_fix, exitCode, h200]
  · intro b
    simp [test_callout_fix, h200]

/-- A run seeing an HTTP 500 error with a plain-text body. -/
def err500Input : RunInput :=
  { fileContent := some "<html></html>"
    response := some { status := 500, text := "Internal Server Error",
                       body := none } }

/-- C4 witness: an HTTP 500 response makes the run print the status and
body and exit 1. -/
theorem claim4_witness :
    (test_callout_fix err500Input).events =
      [.testingHeader, .creating, .httpError 500 "Internal Server Error"] ∧
    mainExitCode err500Input = 1 := by
  have h := claim4_non_2xx_short_circuits err500Input "<html></html>"
    ⟨500, "Internal Server Error", none⟩ rfl rfl (by decide)
  exact ⟨h.1, h.2.1⟩

/-- C9: only a status of exactly 200 proceeds to JSON parsing: any other
status (201 included) prints the HTTP error and exits 1, while with
status 200 the script does call `response.json()` (an unparseable body
then raises, i.e., the outcome is a crash). -/
theorem claim9_only_200_proceeds_to_parsing
    (input : RunInput) (html : String) (resp : HttpResponse)
    (hfc : input.fileContent = some html)
    (hr : input.response = some resp) :
    (resp.status ≠ 200 →
      (PrintEvent.httpError resp.status resp.text) ∈
        (test_callout_fix input).events ∧
      mainExitCode input = 1) ∧
    (resp.status = 200 → resp.body = none →
      (test_callout_fix input).outcome = .crash) := by
  obtain ⟨fc, rsp⟩ := input
  simp only at hfc hr
  subst hfc; subst hr
  constructor
  · intro h200
    constructor
    · simp [test_callout_fix, h200]
    · simp [mainExitCode, test_callout_fix, exitCode, h200]
  · intro h200 hb
    simp [test_callout_fix, h200, hb]

/-- A run seeing an HTTP 201 Created response with a perfectly valid
successful JSON body. -/
def created201Input : RunInput :=
  { fileContent := some "<html></html>"
    response := some { status := 201, text := "Created", body := some okResp } }

/-- C9 witness: HTTP 201, though a 2xx success, is treated as an HTTP
error and the run exits 1. -/
theorem claim9_witness :
    (PrintEvent.httpError 201 "Created") ∈
      (test_callout_fix created201Input).events ∧
    mainExitCode created201Input = 1 :=
  (claim9_only_200_proceeds_to_parsing created201Input "<html></html>"
    ⟨201, "Created", some okResp⟩ rfl rfl).1 (by decide)

/-- In every run whose file read succeeds, the single recorded POST is to
`SERVER_URL ++ "/api/W2N"` with the built payload and timeout 120,
whatever the network then does. -/
theorem request_of_read (html : String) (rsp : Option HttpResponse) :
    (test_callout_fix ⟨some html, rsp⟩).request =
      some ⟨SERVER_URL ++ "/api/W2N", mkPayload html, 120⟩ := by
  cases rsp with
  | none => rfl
  | some resp =>
      by_cases hst : resp.status = 200
      · rcases hb : resp.body with _ | result
        · simp [test_callout_fix, hst, hb]
        · simp [test_callout_fix, hst, hb]
      · simp [test_callout_fix, hst]

/-- C5: whenever the fixture is read, the run records exactly one POST,
to `http://localhost:3004/api/W2N`, whose JSON body consists of exactly
the fields `title`, `databaseId`, `contentHtml` (the full fixture text),
`url`, and a `properties` mapping with keys `Source` and `Status`, with a
120-second timeout.  (The model has room for at most one request, which is
faithful: the script contains a single `requests.post` call and no loop.) -/
theorem claim5_single_post_request_shape
    (input : RunInput) (html : String)
    (hfc : input.fileContent = some html) :
    (test_callout_fix input).request =
      some { url := "http://localhost:3004/api/W2N"
             payload :=
               { title := "Performance Overview (TEST FIX v3)"
                 databaseId := "282a89fedba5815e91f0db972912ef9f"
                 contentHtml := html
                 url := "https://example.servicenow.com/performance-overview-2025-11-13T06-49-50.html"
                 properties := [("Source", "ServiceNow KB"),
                                ("Status", "Published")] }
             timeout := 120 } := by
  obtain ⟨fc, rsp⟩ := input
  simp only at hfc
  subst hfc
  rw [request_of_read]
  rfl

/-- C5 witness: the concrete request recorded by a successful run. -/
theorem claim5_witness :
    (test_callout_fix okInput).request =
      some { url := "http://localhost:3004/api/W2N"
             payload :=
               { title := "Performance Overview (TEST FIX v3)"
                 databaseId := "282a89fedba5815e91f0db972912ef9f"
                 contentHtml := "<html></html>"
                 url := "https://example.servicenow.com/performance-overview-2025-11-13T06-49-50.html"
                 properties := [("Source", "ServiceNow KB"),
                                ("Status", "Published")] }
             timeout := 120 } :=
  claim5_single_post_request_shape okInput "<html></html>" rfl

/-- C6: if the fixture read fails, the run makes no network call and exits
nonzero; conversely any recorded POST proves the read completed first,
since the request body embeds the text the read produced. -/
theorem claim6_read_completes_before_post
    (input : RunInput) :
    (input.fileContent = none →
      (test_callout_fix input).request = none ∧ mainExitCode input = 1) ∧
    (∀ req, (test_callout_fix input).request = some req →
      ∃ html, input.fileContent = some html ∧
        req.payload.contentHtml = html) := by
  obtain ⟨fc, rsp⟩ := input
  constructor
  · intro h
    simp only at h
    subst h
    exact ⟨rfl, rfl⟩
  · intro req hreq
    cases fc with
    | none => simp [test_callout_fix] at hreq
    | some html =>
        refine ⟨html, rfl, ?_⟩
        rw [request_of_read] at hreq
        injection hreq with hreq
        rw [← hreq]
        rfl

/-- A run whose fixture file cannot be read at all. -/
def noFileInput : RunInput := { fileContent := none, response := none }

/-- C6 witness: with an unreadable fixture the run records no POST and
exits 1. -/
theorem claim6_witness :
    (test_callout_fix noFileInput).request = none ∧
    mainExitCode noFileInput = 1 :=
  (claim6_read_completes_before_post noFileInput).1 rfl

/-- Whatever happens in the later summary blocks, every line of the
`source` counts block is printed once the run reaches the summary. -/
theorem mem_events_of_mem_src
    (html : String) (resp : HttpResponse) (fs vfs : List (String × Json))
    (srcEvents : List PrintEvent) (e : PrintEvent)
    (hst : resp.status = 200) (hb : resp.body = some (.obj fs))
    (hsucc : ((getKey fs "success").getD .null).truthy = true)
    (hv : (getKey fs "validation").getD (.obj []) = .obj vfs)
    (hsrc : blockEvents vfs "source" "Source" = some srcEvents)
    (he : e ∈ srcEvents) :
    e ∈ (test_callout_fix ⟨some html, some resp⟩).events := by
  rcases hnot : blockEvents vfs "notion" "Notion" with _ | notionEvents
  · simp [test_callout_fix, hst, hb, reportResult, hsucc, hv, hsrc, hnot, he]
  · rcases herr : errorEvents vfs with _ | errEvents
    · simp [test_callout_fix, hst, hb, reportResult, hsucc, hv, hsrc, hnot,
            herr, he]
    · simp [test_callout_fix, hst, hb, reportResult, hsucc, hv, hsrc, hnot,
            herr, he]

/-- Once the `source` counts block prints in full, every line of the
`notion` counts block is printed too, whatever the `errors` block does. -/
theorem mem_events_of_mem_notion
    (html : String) (resp : HttpResponse) (fs vfs : List (String × Json))
    (srcEvents notionEvents : List PrintEvent) (e : PrintEvent)
    (hst : resp.status = 200) (hb : resp.body = some (.obj fs))
    (hsucc : ((getKey fs "success").getD .null).truthy = true)
    (hv : (getKey fs "validation").getD (.obj []) = .obj vfs)
    (hsrc : blockEvents vfs "source" "Source" = some srcEvents)
    (hnot : blockEvents vfs "notion" "Notion" = some notionEvents)
    (he : e ∈ notionEvents) :
    e ∈ (test_callout_fix ⟨some html, some resp⟩).events := by
  rcases herr : errorEvents vfs with _ | errEvents
  · simp [test_callout_fix, hst, hb, reportResult, hsucc, hv, hsrc, hnot,
          herr, he]
  · simp [test_callout_fix, hst, hb, reportResult, hsucc, hv, hsrc, hnot,
          herr, he]

/-- Once both counts blocks print in full, every line of the `errors`
block is printed. -/
theorem mem_events_of_mem_err
    (html : String) (resp : HttpResponse) (fs vfs : List (String × Json))
    (srcEvents notionEvents errEvents : List PrintEvent) (e : PrintEvent)
    (hst : resp.status = 200) (hb : resp.body = some (.obj fs))
    (hsucc : ((getKey fs "success").getD .null).truthy = true)
    (hv : (getKey fs "validation").getD (.obj []) = .obj vfs)
    (hsrc : blockEvents vfs "source" "Source" = some srcEvents)
    (hnot : blockEvents vfs "notion" "Notion" = some notionEvents)
    (herr : errorEvents vfs = some errEvents)
    (he : e ∈ errEvents) :
    e ∈ (test_callout_fix ⟨some html, some resp⟩).events := by
  simp [test_callout_fix, hst, hb, reportResult, hsucc, hv, hsrc, hnot,
        herr, he]

/-- The counts blocks only look at their own key. -/
theorem blockEvents_congr (vfs1 vfs2 : List (String × Json)) (k l : String)
    (h : getKey vfs1 k = getKey vfs2 k) :
    blockEvents vfs1 k l = blockEvents vfs2 k l := by
  simp only [blockEvents, h]

/-- The `errors` block on a JSON list value: prints nothing when the list
is empty, a header plus one warning line per entry otherwise. -/
theorem errorEvents_arr (vfs : List (String × Json)) (xs : List Json)
    (h : getKey vfs "errors" = some (.arr xs)) :
    errorEvents vfs =
      some (if xs.isEmpty then []
            else .errorsHeader :: xs.map .warningLine) := by
  cases hxe : xs.isEmpty <;>
    simp [errorEvents, h, Json.truthy, pythonIter, hxe]

/-- C7: on a successful response whose `validation` is a dict, when the
`source`/`notion` values that are present are counts dicts (which is what
"a counts object is present" presumes), the counter printing never
raises, and each of the four counters missing from such a dict is printed
with the default value 0. -/
theorem claim7_missing_counters_print_zero
    (input : RunInput) (html : String) (resp : HttpResponse)
    (fs vfs : List (String × Json))
    (hfc : input.fileContent = some html)
    (hr : input.response = some resp)
    (hst : resp.status = 200)
    (hb : resp.body = some (.obj fs))
    (hsucc : ((getKey fs "success").getD .null).truthy = true)
    (hv : (getKey fs "validation").getD (.obj []) = .obj vfs)
    (hsrcShape : getKey vfs "source" = none ∨
      ∃ sfs, getKey vfs "source" = some (.obj sfs))
    (hnotShape : getKey vfs "notion" = none ∨
      ∃ nfs, getKey vfs "notion" = some (.obj nfs)) :
    (blockEvents vfs "source" "Source").isSome = true ∧
    (blockEvents vfs "notion" "Notion").isSome = true ∧
    (∀ sfs, getKey vfs "source" = some (.obj sfs) →
      (getKey sfs "tables" = none →
        (PrintEvent.countLine "Source" "Tables" (.num 0)) ∈
          (test_callout_fix input).events) ∧
      (getKey sfs "images" = none →
        (PrintEvent.countLine "Source" "Images" (.num 0)) ∈
          (test_callout_fix input).events) ∧
      (getKey sfs "lists" = none →
        (PrintEvent.countLine "Source" "Lists" (.num 0)) ∈
          (test_callout_fix input).events) ∧
      (getKey sfs "callouts" = none →
        (PrintEvent.countLine "Source" "Callouts" (.num 0)) ∈
          (test_callout_fix input).events)) ∧
    (∀ nfs, getKey vfs "notion" = some (.obj nfs) →
      (getKey nfs "tables" = none →
        (PrintEvent.countLine "Notion" "Tables" (.num 0)) ∈
          (test_callout_fix input).events) ∧
      (getKey nfs "images" = none →
        (PrintEvent.countLine "Notion" "Images" (.num 0)) ∈
          (test_callout_fix input).events) ∧
      (getKey nfs "lists" = none →
        (PrintEvent.countLine "Notion" "Lists" (.num 0)) ∈
          (test_callout_fix input).events) ∧
      (getKey nfs "callouts" = none →
        (PrintEvent.countLine "Notion" "Callouts" (.num 0)) ∈
          (test_callout_fix input).events)) := by
  obtain ⟨fc, rsp⟩ := input
  simp only at hfc hr
  subst hfc; subst hr
  have hsrcSome : (blockEvents vfs "source" "Source").isSome = true := by
    rcases hsrcShape with h | ⟨sfs, h⟩ <;> simp [blockEvents, h]
  have hnotSome : (blockEvents vfs "notion" "Notion").isSome = true := by
    rcases hnotShape with h | ⟨nfs, h⟩ <;> simp [blockEvents, h]
  refine ⟨hsrcSome, hnotSome, ?_, ?_⟩
  · intro sfs hsk
    have hsrcE : blockEvents vfs "source" "Source" =
        some [.countsHeader "Source",
              .countLine "Source" "Tables"
                ((getKey sfs "tables").getD (.num 0)),
              .countLine "Source" "Images"
                ((getKey sfs "images").getD (.num 0)),
              .countLine "Source" "Lists"
                ((getKey sfs "lists").getD (.num 0)),
              .countLine "Source" "Callouts"
                ((getKey sfs "callouts").getD (.num 0))] := by
      simp [blockEvents, hsk]
    refine ⟨?_, ?_, ?_, ?_⟩ <;> intro hm <;>
      exact mem_events_of_mem_src html resp fs vfs _ _ hst hb hsucc hv hsrcE
        (by simp [hm])
  · intro nfs hnk
    obtain ⟨srcEvents, hsrcE⟩ :
        ∃ s, blockEvents vfs "source" "Source" = some s := by
      rcases h : blockEvents vfs "source" "Source" with _ | s
      · rw [h] at hsrcSome
        simp at hsrcSome
      · exact ⟨s, rfl⟩
    have hnotE : blockEvents vfs "notion" "Notion" =
        some [.countsHeader "Notion",
              .countLine "Notion" "Tables"
                ((getKey nfs "tables").getD (.num 0)),
              .countLine "Notion" "Images"
                ((getKey nfs "images").getD (.num 0)),
              .countLine "Notion" "Lists"
                ((getKey nfs "lists").getD (.num 0)),
              .countLine "Notion" "Callouts"
                ((getKey nfs "callouts").getD (.num 0))] := by
      simp [blockEvents, hnk]
    refine ⟨?_, ?_, ?_, ?_⟩ <;> intro hm <;>
      exact mem_events_of_mem_notion html resp fs vfs _ _ _ hst hb hsucc hv
        hsrcE hnotE (by simp [hm])

/-- Source-side counts dict carrying only `tables`. -/
def sparseSrcFields : List (String × Json) := [("tables", .num 2)]

/-- Validation fields whose `source` counts dict misses three counters. -/
def sparseCountsVFields : List (String × Json) :=
  [("hasErrors", .bool false), ("source", .obj sparseSrcFields)]

/-- Fields of a successful response with the sparse counts dict. -/
def sparseCountsFields : List (String × Json) :=
  [("success", .bool true), ("validation", .obj sparseCountsVFields)]

/-- A run seeing the sparse-counts response with HTTP 200. -/
def sparseCountsInput : RunInput :=
  { fileContent := some "<html></html>"
    response := some { status := 200, text := "",
                       body := some (.obj sparseCountsFields) } }

/-- C7 witness: with `source` present but missing `images`, `lists` and
`callouts`, the run prints those three counters as 0 and the counts
blocks do not raise. -/
theorem claim7_witness :
    (blockEvents sparseCountsVFields "source" "Source").isSome = true ∧
    (PrintEvent.countLine "Source" "Images" (.num 0)) ∈
      (test_callout_fix sparseCountsInput).events ∧
    (PrintEvent.countLine "Source" "Lists" (.num 0)) ∈
      (test_callout_fix sparseCountsInput).events ∧
    (PrintEvent.countLine "Source" "Callouts" (.num 0)) ∈
      (test_callout_fix sparseCountsInput).events := by
  have h := claim7_missing_counters_print_zero sparseCountsInput
    "<html></html>" ⟨200, "", some (.obj sparseCountsFields)⟩
    sparseCountsFields sparseCountsVFields rfl rfl rfl rfl
    (by decide) (by decide)
    (Or.inr ⟨sparseSrcFields, by decide⟩) (Or.inl (by decide))
  have hs := h.2.2.1 sparseSrcFields (by decide)
  exact ⟨h.1, hs.2.1 (by decide), hs.2.2.1 (by decide), hs.2.2.2 (by decide)⟩

/-- C8: two successful 200-responses that agree everywhere except in the
contents of the `validation.errors` list (both lists) produce the same
exit code; and when the errors list is non-empty each entry is printed as
a warning line (provided the two counts blocks before it do not raise,
which is independent of `errors`). -/
theorem claim8_errors_list_is_informational
    (i1 i2 : RunInput) (html : String) (r1 r2 : HttpResponse)
    (fs1 fs2 vfs1 vfs2 : List (String × Json)) (xs ys : List Json)
    (hfc1 : i1.fileContent = some html) (hfc2 : i2.fileContent = some html)
    (hr1 : i1.response = some r1) (hr2 : i2.response = some r2)
    (hs1 : r1.status = 200) (hs2 : r2.status = 200)
    (hb1 : r1.body = some (.obj fs1)) (hb2 : r2.body = some (.obj fs2))
    (hsucc1 : ((getKey fs1 "success").getD .null).truthy = true)
    (hfs : ∀ k, k ≠ "validation" → getKey fs1 k = getKey fs2 k)
    (hv1 : getKey fs1 "validation" = some (.obj vfs1))
    (hv2 : getKey fs2 "validation" = some (.obj vfs2))
    (hvs : ∀ k, k ≠ "errors" → getKey vfs1 k = getKey vfs2 k)
    (he1 : getKey vfs1 "errors" = some (.arr xs))
    (he2 : getKey vfs2 "errors" = some (.arr ys)) :
    mainExitCode i1 = mainExitCode i2 ∧
    ((blockEvents vfs1 "source" "Source").isSome = true →
      (blockEvents vfs1 "notion" "Notion").isSome = true →
      ∀ e ∈ xs, (PrintEvent.warningLine e) ∈ (test_callout_fix i1).events) := by
  obtain ⟨fc1, rsp1⟩ := i1
  obtain ⟨fc2, rsp2⟩ := i2
  simp only at hfc1 hfc2 hr1 hr2
  subst hfc1; subst hfc2; subst hr1; subst hr2
  have hsucc2 : ((getKey fs2 "success").getD .null).truthy = true := by
    rw [← hfs "success" (by decide)]
    exact hsucc1
  have hgv1 : (getKey fs1 "validation").getD (.obj []) = .obj vfs1 := by
    rw [hv1, Option.getD_some]
  have hgv2 : (getKey fs2 "validation").getD (.obj []) = .obj vfs2 := by
    rw [hv2, Option.getD_some]
  have hheq : (getKey vfs1 "hasErrors").getD (.bool true) =
      (getKey vfs2 "hasErrors").getD (.bool true) := by
    rw [hvs "hasErrors" (by decide)]
  have hsrcEq : blockEvents vfs1 "source" "Source" =
      blockEvents vfs2 "source" "Source" :=
    blockEvents_congr _ _ _ _ (hvs "source" (by decide))
  have hnotEq : blockEvents vfs1 "notion" "Notion" =
      blockEvents vfs2 "notion" "Notion" :=
    blockEvents_congr _ _ _ _ (hvs "notion" (by decide))
  have herrE1 := errorEvents_arr vfs1 xs he1
  have herrE2 := errorEvents_arr vfs2 ys he2
  constructor
  · rcases hsrcE : blockEvents vfs1 "source" "Source" with _ | srcEvents
    · have hsrcE2 : blockEvents vfs2 "source" "Source" = none := by
        rw [← hsrcEq]
        exact hsrcE
      simp [mainExitCode, test_callout_fix, exitCode, hs1, hs2, hb1, hb2,
            reportResult, hsucc1, hsucc2, hgv1, hgv2, hsrcE, hsrcE2]
    · have hsrcE2 : blockEvents vfs2 "source" "Source" = some srcEvents := by
        rw [← hsrcEq]
        exact hsrcE
      rcases hnotE : blockEvents vfs1 "notion" "Notion" with _ | notionEvents
      · have hnotE2 : blockEvents vfs2 "notion" "Notion" = none := by
          rw [← hnotEq]
          exact hnotE
        simp [mainExitCode, test_callout_fix, exitCode, hs1, hs2, hb1, hb2,
              reportResult, hsucc1, hsucc2, hgv1, hgv2, hsrcE, hsrcE2,
              hnotE, hnotE2]
      · have hnotE2 : blockEvents vfs2 "notion" "Notion" =
            some notionEvents := by
          rw [← hnotEq]
          exact hnotE
        simp [mainExitCode, test_callout_fix, exitCode, hs1, hs2, hb1, hb2,
              reportResult, hsucc1, hsucc2, hgv1, hgv2, hsrcE, hsrcE2,
              hnotE, hnotE2, herrE1, herrE2, hheq]
  · intro hsrcSome hnotSome e hexs
    obtain ⟨srcEvents, hsrcE⟩ :
        ∃ s, blockEvents vfs1 "source" "Source" = some s := by
      rcases h : blockEvents vfs1 "source" "Source" with _ | s
      · rw [h] at hsrcSome
        simp at hsrcSome
      · exact ⟨s, rfl⟩
    obtain ⟨notionEvents, hnotE⟩ :
        ∃ s, blockEvents vfs1 "notion" "Notion" = some s := by
      rcases h : blockEvents vfs1 "notion" "Notion" with _ | s
      · rw [h] at hnotSome
        simp at hnotSome
      · exact ⟨s, rfl⟩
    have hxe : xs.isEmpty = false := by
      cases xs with
      | nil => exact absurd hexs (List.not_mem_nil e)
      | cons a as => rfl
    have herrE1x : errorEvents vfs1 =
        some (.errorsHeader :: xs.map .warningLine) := by
      rw [herrE1, hxe]
      simp
    exact mem_events_of_mem_err html r1 fs1 vfs1 _ _ _ _ hs1 hb1 hsucc1 hgv1
      hsrcE hnotE herrE1x (by simp [hexs])

/-- Validation fields with a one-entry `errors` list. -/
def errsVFields1 : List (String × Json) :=
  [("hasErrors", .bool false), ("errors", .arr [.str "warn-a"])]

/-- Validation fields identical except for a different `errors` list. -/
def errsVFields2 : List (String × Json) :=
  [("hasErrors", .bool false), ("errors", .arr [.str "warn-b", .str "warn-c"])]

/-- Successful response fields around `errsVFields1`. -/
def errsFields1 : List (String × Json) :=
  [("success", .bool true), ("validation", .obj errsVFields1)]

/-- Successful response fields around `errsVFields2`. -/
def errsFields2 : List (String × Json) :=
  [("success", .bool true), ("validation", .obj errsVFields2)]

/-- A run seeing the first errors-list response. -/
def errsInput1 : RunInput :=
  { fileContent := some "<html></html>"
    response := some { status := 200, text := "",
                       body := some (.obj errsFields1) } }

/-- A run seeing the second errors-list response. -/
def errsInput2 : RunInput :=
  { fileContent := some "<html></html>"
    response := some { status := 200, text := "",
                       body := some (.obj errsFields2) } }

/-- C8 witness: two runs differing only in the contents of
`validation.errors` exit identically, and the entry of the first list is
printed as a warning line. -/
theorem claim8_witness :
    mainExitCode errsInput1 = mainExitCode errsInput2 ∧
    (PrintEvent.warningLine (.str "warn-a")) ∈
      (test_callout_fix errsInput1).events := by
  have hfs : ∀ k, k ≠ "validation" →
      getKey errsFields1 k = getKey errsFields2 k := by
    intro k hk
    by_cases h1 : "success" = k
    · simp [errsFields1, errsFields2, getKey, h1]
    · by_cases h2 : "validation" = k
      · exact absurd h2.symm hk
      · simp [errsFields1, errsFields2, getKey, h1, h2]
  have hvs : ∀ k, k ≠ "errors" →
      getKey errsVFields1 k = getKey errsVFields2 k := by
    intro k hk
    by_cases h1 : "hasErrors" = k
    · simp [errsVFields1, errsVFields2, getKey, h1]
    · by_cases h2 : "errors" = k
      · exact absurd h2.symm hk
      · simp [errsVFields1, errsVFields2, getKey, h1, h2]
  have h := claim8_errors_list_is_informational errsInput1 errsInput2
    "<html></html>" ⟨200, "", some (.obj errsFields1)⟩
    ⟨200, "", some (.obj errsFields2)⟩
    errsFields1 errsFields2 errsVFields1 errsVFields2
    [.str "warn-a"] [.str "warn-b", .str "warn-c"]
    rfl rfl rfl rfl rfl rfl rfl rfl (by decide) hfs (by decide) (by decide)
    hvs (by decide) (by decide)
  exact ⟨h.1, h.2 (by decide) (by decide) (.str "warn-a") (by decide)⟩

end S2N
